import Mathlib

/-!
Verification of the mock staking ledger ("Mock State Manager for Offline/Mock
Chain Mode") of the polkadot-staking-agent repository.

The ledger tracks per-account balances and pool membership and per-pool
aggregates, in two in-memory maps keyed by account id (string) and pool id
(number).  Monetary fields are JavaScript BigInt values serialized as decimal
strings in the source; we embed them as `Int` (BigInt is arbitrary-precision
signed).  Time (`Date.now()`) is embedded as an explicit `now : Int` argument.

Each operation that parses a caller-supplied amount via `BigInt(amount)` can
throw; we embed the result of an operation as `Option OpResult × MockState`,
where a `none` result means the `BigInt` conversion threw an exception (the
state component still records the lazy map insertions performed before the
throw, as those mutations persist in the source).

The source's `formatBalance` renders a Planck amount as a WND decimal string
through IEEE-754 floating point (`Number(balance) / 1e12`, `toFixed`); that
float formatting is not faithfully expressible over `Int`, so the operations
take it as an explicit parameter `fmt : Int → String` used only to build
human-readable messages (which no state transition depends on).
-/

namespace StakingAgent

/-- Pool lifecycle state: 'Open' | 'Blocked' | 'Destroying'. -/
inductive LifecycleState where
  | Open
  | Blocked
  | Destroying
deriving DecidableEq, Repr

/-- String rendering used in messages (template interpolation of the state). -/
def LifecycleState.str : LifecycleState → String
  | .Open => "Open"
  | .Blocked => "Blocked"
  | .Destroying => "Destroying"

/-- Per-account record (interface AccountState). `balance` is the free
balance in Planck; `poolId` the current (unique) pool membership;
`unbondingEra` the timestamp at which the whole unbonding amount releases. -/
structure AccountState where
  balance : Int
  poolId : Option Nat
  bonded : Int
  unbonding : Int
  unbondingEra : Option Int
  claimableRewards : Int
deriving DecidableEq, Repr

/-- Per-pool record (interface PoolState). -/
structure PoolState where
  poolId : Nat
  bonded : Int
  memberCount : Nat
  state : LifecycleState
  commission : String
  metadata : Option String
deriving DecidableEq, Repr

abbrev AccountMap := List (String × AccountState)
abbrev PoolMap := List (Nat × PoolState)

/-- The two in-memory maps (accountStates, poolStates). -/
structure MockState where
  accountStates : AccountMap
  poolStates : PoolMap
deriving DecidableEq, Repr

/-- Both maps start empty (fresh server instance). -/
def initialState : MockState := ⟨[], []⟩

/-- `Map.set k v`: replace the binding of `k` if present, else append. -/
def setEntry {α β : Type} [BEq α] : List (α × β) → α → β → List (α × β)
  | [], k, v => [(k, v)]
  | e :: rest, k, v =>
      if e.1 == k then (k, v) :: rest else e :: setEntry rest k v

/-- Default starting balance (10 WND = 10,000,000,000,000 Planck). -/
def DEFAULT_BALANCE : Int := 10000000000000

/-- Unbonding period: 28 days in milliseconds. -/
def UNBONDING_PERIOD_MS : Int := 28 * 24 * 60 * 60 * 1000

/-- One day in milliseconds (used for remaining-days messages). -/
def ONE_DAY_MS : Int := 24 * 60 * 60 * 1000

/-- Fee reserve checked by join/bond-extra (approximately 0.01 WND). -/
def minReserve : Int := 10000000000

/-- Ceiling division for positive divisor: embeds
`Math.ceil((t - now) / oneDay)` (exact in the source's float range;
used only in human-readable messages). -/
def ceilDiv (a b : Int) : Int := -((-a) / b)

/-- Decimal-digit accumulator for `parseBigInt`. -/
def digitsToNat (cs : List Char) : Nat :=
  cs.foldl (fun n c => 10 * n + (c.toNat - 48)) 0

/-- Embeds the JavaScript `BigInt(string)` conversion: leading/trailing
whitespace is ignored, the empty string is 0, an optional sign is followed
by decimal digits; anything else throws (`none`).  (The rarely-used
`0x`/`0o`/`0b` prefixed forms of the JS grammar are not modelled; every
amount literal considered here is sign-plus-decimal.) -/
def parseBigInt (s : String) : Option Int :=
  let cs := ((s.toList.dropWhile Char.isWhitespace).reverse.dropWhile
    Char.isWhitespace).reverse
  match cs with
  | [] => some 0
  | c :: rest =>
    if c = '-' then
      if rest ≠ [] ∧ rest.all Char.isDigit then
        some (-(digitsToNat rest : Int))
      else none
    else if c = '+' then
      if rest ≠ [] ∧ rest.all Char.isDigit then
        some (digitsToNat rest)
      else none
    else if (c :: rest).all Char.isDigit then
      some (digitsToNat (c :: rest))
    else none

/-- Fresh account record: default balance, nothing bonded, no pool. -/
def defaultAccountState : AccountState :=
  { balance := DEFAULT_BALANCE
    poolId := none
    bonded := 0
    unbonding := 0
    unbondingEra := none
    claimableRewards := 0 }

/-- Fresh pool record: Open, zeroed aggregates. -/
def defaultPoolState (poolId : Nat) : PoolState :=
  { poolId := poolId
    bonded := 0
    memberCount := 0
    state := .Open
    commission := "0%"
    metadata := some ("Pool " ++ toString poolId ++ " (Mock)") }

/-- getAccountState: get-or-create the account record (lazy creation
persists in the map). -/
def getAccountState (st : MockState) (account : String) :
    AccountState × MockState :=
  match st.accountStates.lookup account with
  | some s => (s, st)
  | none =>
      (defaultAccountState,
       { st with accountStates :=
           setEntry st.accountStates account defaultAccountState })

/-- getPoolState: get-or-create the pool record (lazy creation persists). -/
def getPoolState (st : MockState) (poolId : Nat) : PoolState × MockState :=
  match st.poolStates.lookup poolId with
  | some p => (p, st)
  | none =>
      (defaultPoolState poolId,
       { st with poolStates :=
           setEntry st.poolStates poolId (defaultPoolState poolId) })

/-- Result shape of the mutating operations:
`{ success: boolean; message: string; error?: string }`. -/
structure OpResult where
  success : Bool
  message : String
  error : Option String := none
deriving DecidableEq, Repr

/--
mockJoinPool(account, poolId, amount).  `fmt` stands for the source's
`formatBalance`; `now` for `Date.now()`.  A `none` result component models
the exception thrown by `BigInt(amount)` on an unparsable amount string
(the lazily created account/pool records persist in the returned state).
-/
def mockJoinPool (fmt : Int → String) (st : MockState) (account : String)
    (poolId : Nat) (amount : String) (now : Int) :
    Option OpResult × MockState :=
  let (accountState, st) := getAccountState st account
  let (poolState, st) := getPoolState st poolId
  match parseBigInt amount with
  | none => (none, st)
  | some amountBigInt =>
    let balanceBigInt := accountState.balance
    let bondedBigInt := accountState.bonded
    let unbondingBigInt := accountState.unbonding
    -- Check if pool is open
    if poolState.state ≠ .Open then
      (some { success := false
              message := "Cannot join pool " ++ toString poolId ++
                ": pool is " ++ poolState.state.str
              error := some "POOL_NOT_OPEN" }, st)
    -- Check if already in a different pool
    else if accountState.poolId ≠ none ∧ accountState.poolId ≠ some poolId then
      (some { success := false
              message := "Already in pool " ++
                (match accountState.poolId with
                 | some p => toString p
                 | none => "") ++ ". Unbond first to switch pools."
              error := some "ALREADY_IN_POOL" }, st)
    -- Check if has unbonding funds (must wait for unbonding period)
    else if unbondingBigInt > 0 ∧ now < accountState.unbondingEra.getD 0 then
      let daysLeft := ceilDiv (accountState.unbondingEra.getD 0 - now) ONE_DAY_MS
      (some { success := false
              message := "Cannot join pool: " ++ fmt accountState.unbonding ++
                " WND still unbonding (" ++ toString daysLeft ++
                " days remaining). Withdraw unbonded funds first."
              error := some "FUNDS_UNBONDING" }, st)
    -- Check balance against amount + fee reserve
    else if balanceBigInt < amountBigInt + minReserve then
      (some { success := false
              message := "Insufficient balance. Need " ++ fmt amountBigInt ++
                " WND + fees, have " ++ fmt accountState.balance ++ " WND"
              error := some "INSUFFICIENT_BALANCE" }, st)
    -- If already in this pool, this is bond_extra (handled separately)
    else if accountState.poolId = some poolId then
      (some { success := false
              message := "Already in pool " ++ toString poolId ++
                ". Use bond_extra to add more funds."
              error := some "ALREADY_IN_POOL" }, st)
    else
      -- Execute join: deduct from balance, add to bonded
      let newBalance := balanceBigInt - amountBigInt
      let newBonded := bondedBigInt + amountBigInt
      let accountState1 := { accountState with
          balance := newBalance
          poolId := some poolId
          bonded := newBonded }
      let poolState1 := { poolState with
          bonded := poolState.bonded + amountBigInt
          memberCount :=
            if bondedBigInt = 0 then poolState.memberCount + 1
            else poolState.memberCount }
      (some { success := true
              message := "Successfully joined pool " ++ toString poolId ++
                " with " ++ fmt amountBigInt ++ " WND" },
       { accountStates := setEntry st.accountStates account accountState1
         poolStates := setEntry st.poolStates poolId poolState1 })

/-- mockBondExtra(account, amount).  The `BigInt(amount)` conversion happens
before the membership check in the source, so an unparsable amount throws
(`none`) even for an account in no pool. -/
def mockBondExtra (fmt : Int → String) (st : MockState) (account : String)
    (amount : String) : Option OpResult × MockState :=
  let (accountState, st) := getAccountState st account
  match parseBigInt amount with
  | none => (none, st)
  | some amountBigInt =>
    let balanceBigInt := accountState.balance
    -- Must be in a pool
    match accountState.poolId with
    | none =>
        (some { success := false
                message := "Not in any pool. Join a pool first."
                error := some "NOT_IN_POOL" }, st)
    | some pid =>
      -- Check balance
      if balanceBigInt < amountBigInt + minReserve then
        (some { success := false
                message := "Insufficient balance. Need " ++ fmt amountBigInt ++
                  " WND + fees"
                error := some "INSUFFICIENT_BALANCE" }, st)
      else
        let (poolState, st) := getPoolState st pid
        let accountState1 := { accountState with
            balance := balanceBigInt - amountBigInt
            bonded := accountState.bonded + amountBigInt }
        let poolState1 := { poolState with
            bonded := poolState.bonded + amountBigInt }
        (some { success := true
                message := "Successfully bonded extra " ++ fmt amountBigInt ++
                  " WND to pool " ++ toString pid },
         { accountStates := setEntry st.accountStates account accountState1
           poolStates := setEntry st.poolStates pid poolState1 })

/-- mockUnbond(account, amount): move funds from bonded to unbonding,
resetting the release time to `now + UNBONDING_PERIOD_MS`; on reaching
bonded == 0, leave the pool (clamped member-count decrement). -/
def mockUnbond (fmt : Int → String) (st : MockState) (account : String)
    (amount : String) (now : Int) : Option OpResult × MockState :=
  let (accountState, st) := getAccountState st account
  match parseBigInt amount with
  | none => (none, st)
  | some amountBigInt =>
    let bondedBigInt := accountState.bonded
    -- Must be in a pool
    match accountState.poolId with
    | none =>
        (some { success := false
                message := "Not in any pool"
                error := some "NOT_IN_POOL" }, st)
    | some pid =>
      -- Can't unbond more than bonded
      if amountBigInt > bondedBigInt then
        (some { success := false
                message := "Cannot unbond " ++ fmt amountBigInt ++
                  " WND: only " ++ fmt accountState.bonded ++ " WND bonded"
                error := some "INSUFFICIENT_BONDED" }, st)
      else
        let (poolState, st) := getPoolState st pid
        -- Update state: move from bonded to unbonding
        let newBonded := bondedBigInt - amountBigInt
        let accountState1 := { accountState with
            bonded := newBonded
            unbonding := accountState.unbonding + amountBigInt
            unbondingEra := some (now + UNBONDING_PERIOD_MS) }
        let poolState1 := { poolState with
            bonded := poolState.bonded - amountBigInt }
        -- If fully unbonded, remove from pool (memberCount is clamped at 0
        -- by Math.max in the source; Nat subtraction matches that)
        let accountState2 :=
          if newBonded = 0 then { accountState1 with poolId := none }
          else accountState1
        let poolState2 :=
          if newBonded = 0 then
            { poolState1 with memberCount := poolState1.memberCount - 1 }
          else poolState1
        (some { success := true
                message := "Initiated unbonding of " ++ fmt amountBigInt ++
                  " WND (28-day unbonding period)" },
         { accountStates := setEntry st.accountStates account accountState2
           poolStates := setEntry st.poolStates pid poolState2 })

/-- mockWithdrawUnbonded(account): release the whole unbonding amount to the
free balance once `now` has reached the release time. -/
def mockWithdrawUnbonded (fmt : Int → String) (st : MockState)
    (account : String) (now : Int) : Option OpResult × MockState :=
  let (accountState, st) := getAccountState st account
  let unbondingBigInt := accountState.unbonding
  if unbondingBigInt = 0 then
    (some { success := false
            message := "No unbonded funds to withdraw"
            error := some "NO_UNBONDED_FUNDS" }, st)
  else
    -- Check if unbonding period has passed (undefined era coalesces to 0)
    let unbondingCompleteTime := accountState.unbondingEra.getD 0
    if now < unbondingCompleteTime then
      let daysLeft := ceilDiv (unbondingCompleteTime - now) ONE_DAY_MS
      (some { success := false
              message := "Unbonding period not complete. " ++
                toString daysLeft ++ " days remaining."
              error := some "UNBONDING_PERIOD_NOT_COMPLETE" }, st)
    else
      -- Move from unbonding to free balance
      let accountState1 := { accountState with
          balance := accountState.balance + unbondingBigInt
          unbonding := 0
          unbondingEra := none }
      (some { success := true
              message := "Withdrew " ++ fmt unbondingBigInt ++
                " WND (now available as free balance)" },
       { st with accountStates :=
           setEntry st.accountStates account accountState1 })

/-- mockClaimRewards(account, poolId?): move the accrued rewards to the free
balance; claiming zero is a successful no-op. -/
def mockClaimRewards (fmt : Int → String) (st : MockState) (account : String)
    (poolId : Option Nat) : Option OpResult × MockState :=
  let (accountState, st) := getAccountState st account
  -- Must be in a pool
  match accountState.poolId with
  | none =>
      (some { success := false
              message := "Not in any pool"
              error := some "NOT_IN_POOL" }, st)
  | some cur =>
    -- If poolId specified, must match
    if poolId ≠ none ∧ poolId ≠ some cur then
      (some { success := false
              message := "Not in pool " ++
                (match poolId with | some p => toString p | none => "") ++
                ". Currently in pool " ++ toString cur
              error := some "WRONG_POOL" }, st)
    else
      let rewardsBigInt := accountState.claimableRewards
      if rewardsBigInt = 0 then
        (some { success := true, message := "No rewards to claim" }, st)
      else
        -- Move rewards to free balance
        let accountState1 := { accountState with
            balance := accountState.balance + rewardsBigInt
            claimableRewards := 0 }
        (some { success := true
                message := "Claimed " ++ fmt rewardsBigInt ++
                  " WND in rewards" },
         { st with accountStates :=
             setEntry st.accountStates account accountState1 })

/-- Return shape of mockGetStakingStatus. -/
structure StakingStatus where
  account : String
  poolId : Option Nat
  bonded : Int
  unbonding : Int
  claimableRewards : Int
  isMember : Bool
  balance : Int
deriving DecidableEq, Repr

/-- mockGetStakingStatus(account): read-only in intent but side-effecting —
an active member with nonzero bonded accrues `bonded / 1000n` (BigInt
division truncates toward zero, hence `Int.tdiv`) into claimableRewards
before the view is built. -/
def mockGetStakingStatus (st : MockState) (account : String) :
    StakingStatus × MockState :=
  let (accountState, st) := getAccountState st account
  -- Simulate some rewards accumulation (0.1% of bonded per status check)
  let (accountState, st) :=
    if accountState.poolId ≠ none ∧ accountState.bonded ≠ 0 then
      let rewardIncrement := Int.tdiv accountState.bonded 1000
      let accountState1 := { accountState with
          claimableRewards := accountState.claimableRewards + rewardIncrement }
      (accountState1,
       { st with accountStates :=
           setEntry st.accountStates account accountState1 })
    else (accountState, st)
  ({ account := account
     poolId := accountState.poolId
     bonded := accountState.bonded
     unbonding := accountState.unbonding
     claimableRewards := accountState.claimableRewards
     isMember := accountState.poolId.isSome
     balance := accountState.balance }, st)

/-- Return shape of mockGetPoolInfo (the four role fields are the literal
"N/A" placeholders of the source). -/
structure PoolInfo where
  poolId : Nat
  bonded : Int
  memberCount : Nat
  state : LifecycleState
  commission : String
  metadata : Option String
  depositor : String
  root : String
  nominator : String
  stateToggler : String
deriving DecidableEq, Repr

/-- mockGetPoolInfo(poolId): built on the get-or-create `getPoolState`, so
querying an untouched pool inserts its default record into the registry. -/
def mockGetPoolInfo (st : MockState) (poolId : Nat) : PoolInfo × MockState :=
  let (poolState, st) := getPoolState st poolId
  ({ poolId := poolState.poolId
     bonded := poolState.bonded
     memberCount := poolState.memberCount
     state := poolState.state
     commission := poolState.commission
     metadata := poolState.metadata
     depositor := "N/A"
     root := "N/A"
     nominator := "N/A"
     stateToggler := "N/A" }, st)

/-- One invocation of a core operation, carrying the value `Date.now()`
returned at call time where the source reads the clock. -/
inductive Op where
  | joinPool (account : String) (poolId : Nat) (amount : String) (now : Int)
  | bondExtra (account : String) (amount : String)
  | unbond (account : String) (amount : String) (now : Int)
  | withdrawUnbonded (account : String) (now : Int)
  | claimRewards (account : String) (poolId : Option Nat)
  | getStatus (account : String)
deriving DecidableEq, Repr

/-- State reached after one operation (messages do not feed back into the
state, so the formatter is threaded through unchanged). -/
def applyOp (fmt : Int → String) (st : MockState) : Op → MockState
  | .joinPool account poolId amount now =>
      (mockJoinPool fmt st account poolId amount now).2
  | .bondExtra account amount => (mockBondExtra fmt st account amount).2
  | .unbond account amount now => (mockUnbond fmt st account amount now).2
  | .withdrawUnbonded account now =>
      (mockWithdrawUnbonded fmt st account now).2
  | .claimRewards account poolId =>
      (mockClaimRewards fmt st account poolId).2
  | .getStatus account => (mockGetStakingStatus st account).2

/-- State reached after a sequence of operations. -/
def runOps (fmt : Int → String) (st : MockState) (ops : List Op) : MockState :=
  ops.foldl (applyOp fmt) st

/-- The conserved quantity of the spec's conservation property. -/
def sumOf (s : AccountState) : Int :=
  s.balance + s.bonded + s.unbonding + s.claimableRewards

/-- Whether the operation is the status read (the only one that accrues). -/
def Op.isGetStatus : Op → Bool
  | .getStatus _ => true
  | _ => false

/-- An amount string that parses as a (strictly) positive integer. -/
def amountPos (s : String) : Bool :=
  match parseBigInt s with
  | some a => decide (0 < a)
  | none => false

/-- All amounts carried by an operation parse as positive integers. -/
def opAmountsPos : Op → Bool
  | .joinPool _ _ amount _ => amountPos amount
  | .bondExtra _ amount => amountPos amount
  | .unbond _ amount _ => amountPos amount
  | _ => true

/-- All amounts in a sequence of operations parse as positive integers. -/
def opsAmountsPos (ops : List Op) : Bool := ops.all opAmountsPos

/-! ### Map lemmas -/

theorem lookup_setEntry_self {α β : Type} [BEq α] [LawfulBEq α]
    (m : List (α × β)) (k : α) (v : β) :
    (setEntry m k v).lookup k = some v := by
  induction m with
  | nil => simp [setEntry, List.lookup]
  | cons e rest ih =>
      obtain ⟨ek, ev⟩ := e
      by_cases he : ek = k
      · subst he; simp [setEntry, List.lookup]
      · have hb : (ek == k) = false := by simpa using he
        have hb2 : (k == ek) = false := by
          simpa using fun hkk => he hkk.symm
        simp [setEntry, hb, hb2, List.lookup, ih]

theorem lookup_setEntry_ne {α β : Type} [BEq α] [LawfulBEq α]
    {m : List (α × β)} {k k' : α} {v : β} (h : k' ≠ k) :
    (setEntry m k v).lookup k' = m.lookup k' := by
  have hkk : (k' == k) = false := by simpa using h
  induction m with
  | nil => simp [setEntry, List.lookup, hkk]
  | cons e rest ih =>
      obtain ⟨ek, ev⟩ := e
      by_cases he : ek = k
      · subst he; simp [setEntry, List.lookup, hkk]
      · have hb : (ek == k) = false := by simpa using he
        by_cases hk' : k' = ek
        · subst hk'; simp [setEntry, hb, List.lookup]
        · have hb3 : (k' == ek) = false := by simpa using hk'
          simp [setEntry, hb, hb3, List.lookup, ih]

theorem getAccountState_of_mem (st : MockState) (a : String)
    (s : AccountState) (h : st.accountStates.lookup a = some s) :
    getAccountState st a = (s, st) := by
  simp [getAccountState, h]

theorem getPoolState_of_mem (st : MockState) (p : Nat) (ps : PoolState)
    (h : st.poolStates.lookup p = some ps) :
    getPoolState st p = (ps, st) := by
  simp [getPoolState, h]

theorem getAccountState_lookup_self (st : MockState) (a : String) :
    ((getAccountState st a).2).accountStates.lookup a
      = some (getAccountState st a).1 := by
  unfold getAccountState
  cases h : st.accountStates.lookup a with
  | some s => simp [h]
  | none => simp [h, lookup_setEntry_self]

theorem getAccountState_lookup_ne (st : MockState) (a b : String)
    (h : b ≠ a) :
    ((getAccountState st a).2).accountStates.lookup b
      = st.accountStates.lookup b := by
  unfold getAccountState
  cases hx : st.accountStates.lookup a with
  | some s => simp [hx]
  | none => simp [hx, lookup_setEntry_ne h]

theorem getAccountState_poolStates (st : MockState) (a : String) :
    ((getAccountState st a).2).poolStates = st.poolStates := by
  unfold getAccountState
  cases hx : st.accountStates.lookup a <;> simp [hx]

theorem getPoolState_accountStates (st : MockState) (p : Nat) :
    ((getPoolState st p).2).accountStates = st.accountStates := by
  unfold getPoolState
  cases hx : st.poolStates.lookup p <;> simp [hx]

theorem getPoolState_lookup_self (st : MockState) (p : Nat) :
    ((getPoolState st p).2).poolStates.lookup p
      = some (getPoolState st p).1 := by
  unfold getPoolState
  cases h : st.poolStates.lookup p with
  | some s => simp [h]
  | none => simp [h, lookup_setEntry_self]

/-! ### The single-membership/zero-bonded invariant -/

/-- Per-account invariant: the pool membership is present exactly when the
bonded amount is nonzero, and the bonded amount is nonnegative. -/
def Pinv (s : AccountState) : Prop :=
  (s.poolId ≠ none ↔ s.bonded ≠ 0) ∧ 0 ≤ s.bonded

/-- Every account record in the map satisfies `Pinv`. -/
def InvMap (m : AccountMap) : Prop :=
  ∀ a s, m.lookup a = some s → Pinv s

theorem Pinv_default : Pinv defaultAccountState := by
  constructor
  · simp [defaultAccountState]
  · simp [defaultAccountState]

theorem InvMap_setEntry {m : AccountMap} {r : AccountState} (a : String)
    (h : InvMap m) (hr : Pinv r) : InvMap (setEntry m a r) := by
  intro b s hb
  by_cases hba : b = a
  · subst hba
    rw [lookup_setEntry_self] at hb
    cases hb; exact hr
  · rw [lookup_setEntry_ne hba] at hb
    exact h b s hb

theorem InvMap_getAccountState (st : MockState) (a : String)
    (h : InvMap st.accountStates) :
    InvMap ((getAccountState st a).2).accountStates := by
  unfold getAccountState
  cases hx : st.accountStates.lookup a with
  | some s => simpa [hx] using h
  | none =>
      simp only [hx]
      exact InvMap_setEntry a h Pinv_default

theorem Pinv_getAccountState_fst (st : MockState) (a : String)
    (h : InvMap st.accountStates) : Pinv (getAccountState st a).1 := by
  unfold getAccountState
  cases hx : st.accountStates.lookup a with
  | some s => simpa [hx] using h a s hx
  | none => simpa [hx] using Pinv_default

theorem InvMap_mockJoinPool (fmt : Int → String) (st : MockState)
    (acc : String) (pid : Nat) (amount : String) (now : Int)
    (h : InvMap st.accountStates) (hok : amountPos amount = true) :
    InvMap ((mockJoinPool fmt st acc pid amount now).2).accountStates := by
  rcases hga : getAccountState st acc with ⟨sA, st1⟩
  have hP : Pinv sA := by
    have := Pinv_getAccountState_fst st acc h; rwa [hga] at this
  have h1 : InvMap st1.accountStates := by
    have := InvMap_getAccountState st acc h; rwa [hga] at this
  rcases hgp : getPoolState st1 pid with ⟨pP, st2⟩
  have h2eq : st2.accountStates = st1.accountStates := by
    have := getPoolState_accountStates st1 pid; rwa [hgp] at this
  have h2 : InvMap st2.accountStates := h2eq ▸ h1
  cases hparse : parseBigInt amount with
  | none => simp [amountPos, hparse] at hok
  | some amt =>
    have hpos : 0 < amt := by simpa [amountPos, hparse] using hok
    simp only [mockJoinPool, hga, hgp, hparse]
    split
    next hc1 => exact h2
    next hc1 =>
      split
      next hc2 => exact h2
      next hc2 =>
        split
        next hc3 => exact h2
        next hc3 =>
          split
          next hc4 => exact h2
          next hc4 =>
            split
            next hc5 => exact h2
            next hc5 =>
              have hnone : sA.poolId = none := by
                rcases hs : sA.poolId with _ | p
                · rfl
                · exfalso
                  rcases Decidable.em (p = pid) with hp | hp
                  · exact hc5 (by rw [hs, hp])
                  · exact hc2 ⟨by simp [hs], by simp [hs, hp]⟩
              have hb0 : sA.bonded = 0 := by
                by_contra hb
                exact (hP.1.mpr hb) hnone
              refine InvMap_setEntry acc h2 ⟨?_, ?_⟩ <;> simp <;> omega

theorem InvMap_mockBondExtra (fmt : Int → String) (st : MockState)
    (acc : String) (amount : String)
    (h : InvMap st.accountStates) (hok : amountPos amount = true) :
    InvMap ((mockBondExtra fmt st acc amount).2).accountStates := by
  rcases hga : getAccountState st acc with ⟨sA, st1⟩
  have hP : Pinv sA := by
    have := Pinv_getAccountState_fst st acc h; rwa [hga] at this
  have h1 : InvMap st1.accountStates := by
    have := InvMap_getAccountState st acc h; rwa [hga] at this
  cases hparse : parseBigInt amount with
  | none => simp [amountPos, hparse] at hok
  | some amt =>
    have hpos : 0 < amt := by simpa [amountPos, hparse] using hok
    simp only [mockBondExtra, hga, hparse]
    split
    next hpid => exact h1
    next pid hpid =>
      split
      next hbal => exact h1
      next hbal =>
        rcases hgp : getPoolState st1 pid with ⟨pP, st2⟩
        have h2eq : st2.accountStates = st1.accountStates := by
          have := getPoolState_accountStates st1 pid; rwa [hgp] at this
        have h2 : InvMap st2.accountStates := h2eq ▸ h1
        simp only [hgp]
        have hbne : sA.bonded ≠ 0 := hP.1.mp (by simp [hpid])
        have hb := hP.2
        refine InvMap_setEntry acc h2 ⟨?_, ?_⟩ <;> simp [hpid] <;> omega

theorem InvMap_mockUnbond (fmt : Int → String) (st : MockState)
    (acc : String) (amount : String) (now : Int)
    (h : InvMap st.accountStates) :
    InvMap ((mockUnbond fmt st acc amount now).2).accountStates := by
  rcases hga : getAccountState st acc with ⟨sA, st1⟩
  have hP : Pinv sA := by
    have := Pinv_getAccountState_fst st acc h; rwa [hga] at this
  have h1 : InvMap st1.accountStates := by
    have := InvMap_getAccountState st acc h; rwa [hga] at this
  cases hparse : parseBigInt amount with
  | none => simp only [mockUnbond, hga, hparse]; exact h1
  | some amt =>
    simp only [mockUnbond, hga, hparse]
    split
    next hpid => exact h1
    next pid hpid =>
      split
      next hgt => exact h1
      next hgt =>
        rcases hgp : getPoolState st1 pid with ⟨pP, st2⟩
        have h2eq : st2.accountStates = st1.accountStates := by
          have := getPoolState_accountStates st1 pid; rwa [hgp] at this
        have h2 : InvMap st2.accountStates := h2eq ▸ h1
        simp only [hgp]
        have hb := hP.2
        split
        next h0 =>
          refine InvMap_setEntry acc h2 ⟨?_, ?_⟩ <;> simp <;> omega
        next h0 =>
          refine InvMap_setEntry acc h2 ⟨?_, ?_⟩ <;> simp [hpid] <;> omega

theorem InvMap_mockWithdrawUnbonded (fmt : Int → String) (st : MockState)
    (acc : String) (now : Int) (h : InvMap st.accountStates) :
    InvMap ((mockWithdrawUnbonded fmt st acc now).2).accountStates := by
  rcases hga : getAccountState st acc with ⟨sA, st1⟩
  have hP : Pinv sA := by
    have := Pinv_getAccountState_fst st acc h; rwa [hga] at this
  have h1 : InvMap st1.accountStates := by
    have := InvMap_getAccountState st acc h; rwa [hga] at this
  simp only [mockWithdrawUnbonded, hga]
  split
  next => exact h1
  next =>
    split
    next => exact h1
    next =>
      refine InvMap_setEntry acc h1 ⟨by simpa using hP.1, by simpa using hP.2⟩

theorem InvMap_mockClaimRewards (fmt : Int → String) (st : MockState)
    (acc : String) (poolArg : Option Nat) (h : InvMap st.accountStates) :
    InvMap ((mockClaimRewards fmt st acc poolArg).2).accountStates := by
  rcases hga : getAccountState st acc with ⟨sA, st1⟩
  have hP : Pinv sA := by
    have := Pinv_getAccountState_fst st acc h; rwa [hga] at this
  have h1 : InvMap st1.accountStates := by
    have := InvMap_getAccountState st acc h; rwa [hga] at this
  simp only [mockClaimRewards, hga]
  split
  next => exact h1
  next cur hcur =>
    split
    next => exact h1
    next =>
      split
      next => exact h1
      next =>
        refine InvMap_setEntry acc h1
          ⟨by simpa using hP.1, by simpa using hP.2⟩

theorem InvMap_mockGetStakingStatus (st : MockState) (acc : String)
    (h : InvMap st.accountStates) :
    InvMap ((mockGetStakingStatus st acc).2).accountStates := by
  rcases hga : getAccountState st acc with ⟨sA, st1⟩
  have hP : Pinv sA := by
    have := Pinv_getAccountState_fst st acc h; rwa [hga] at this
  have h1 : InvMap st1.accountStates := by
    have := InvMap_getAccountState st acc h; rwa [hga] at this
  simp only [mockGetStakingStatus, hga]
  split
  next =>
    refine InvMap_setEntry acc h1 ⟨by simpa using hP.1, by simpa using hP.2⟩
  next => exact h1

theorem InvMap_applyOp (fmt : Int → String) (st : MockState) (op : Op)
    (h : InvMap st.accountStates) (hok : opAmountsPos op = true) :
    InvMap ((applyOp fmt st op).accountStates) := by
  cases op with
  | joinPool acc pid amount now =>
      exact InvMap_mockJoinPool fmt st acc pid amount now h
        (by simpa [opAmountsPos] using hok)
  | bondExtra acc amount =>
      exact InvMap_mockBondExtra fmt st acc amount h
        (by simpa [opAmountsPos] using hok)
  | unbond acc amount now => exact InvMap_mockUnbond fmt st acc amount now h
  | withdrawUnbonded acc now =>
      exact InvMap_mockWithdrawUnbonded fmt st acc now h
  | claimRewards acc poolArg =>
      exact InvMap_mockClaimRewards fmt st acc poolArg h
  | getStatus acc => exact InvMap_mockGetStakingStatus st acc h

theorem InvMap_runOps (fmt : Int → String) (ops : List Op) (st : MockState)
    (h : InvMap st.accountStates) (hok : opsAmountsPos ops = true) :
    InvMap ((runOps fmt st ops).accountStates) := by
  induction ops generalizing st with
  | nil => exact h
  | cons op rest ih =>
      have hl : opAmountsPos op = true ∧ opsAmountsPos rest = true := by
        simpa [opsAmountsPos] using hok
      have hstep := InvMap_applyOp fmt st op h hl.1
      simpa [runOps, List.foldl] using
        ih (applyOp fmt st op) hstep hl.2

theorem InvMap_initialState : InvMap initialState.accountStates := by
  intro a s hx
  simp [initialState, List.lookup] at hx

/-! ### Frame lemmas: an operation touches no account record other than the
one it is invoked for -/

theorem mockJoinPool_lookup_ne (fmt : Int → String) (st : MockState)
    (acc : String) (pid : Nat) (amount : String) (now : Int) (b : String)
    (hb : b ≠ acc) :
    ((mockJoinPool fmt st acc pid amount now).2).accountStates.lookup b
      = st.accountStates.lookup b := by
  rcases hga : getAccountState st acc with ⟨sA, st1⟩
  have hga_ne : st1.accountStates.lookup b = st.accountStates.lookup b := by
    have := getAccountState_lookup_ne st acc b hb; rwa [hga] at this
  rcases hgp : getPoolState st1 pid with ⟨pP, st2⟩
  have h2eq : st2.accountStates = st1.accountStates := by
    have := getPoolState_accountStates st1 pid; rwa [hgp] at this
  cases hparse : parseBigInt amount with
  | none =>
      simp only [mockJoinPool, hga, hgp, hparse]
      rw [h2eq]; exact hga_ne
  | some amt =>
      simp only [mockJoinPool, hga, hgp, hparse]
      repeat' split
      all_goals simp [h2eq, hga_ne, lookup_setEntry_ne hb]

theorem mockBondExtra_lookup_ne (fmt : Int → String) (st : MockState)
    (acc : String) (amount : String) (b : String) (hb : b ≠ acc) :
    ((mockBondExtra fmt st acc amount).2).accountStates.lookup b
      = st.accountStates.lookup b := by
  rcases hga : getAccountState st acc with ⟨sA, st1⟩
  have hga_ne : st1.accountStates.lookup b = st.accountStates.lookup b := by
    have := getAccountState_lookup_ne st acc b hb; rwa [hga] at this
  cases hparse : parseBigInt amount with
  | none => simp only [mockBondExtra, hga, hparse]; exact hga_ne
  | some amt =>
      simp only [mockBondExtra, hga, hparse]
      split
      next => exact hga_ne
      next pid hpid =>
        split
        next => exact hga_ne
        next =>
          rcases hgp : getPoolState st1 pid with ⟨pP, st2⟩
          have h2eq : st2.accountStates = st1.accountStates := by
            have := getPoolState_accountStates st1 pid; rwa [hgp] at this
          simp only [hgp]
          simp [h2eq, hga_ne, lookup_setEntry_ne hb]

theorem mockUnbond_lookup_ne (fmt : Int → String) (st : MockState)
    (acc : String) (amount : String) (now : Int) (b : String)
    (hb : b ≠ acc) :
    ((mockUnbond fmt st acc amount now).2).accountStates.lookup b
      = st.accountStates.lookup b := by
  rcases hga : getAccountState st acc with ⟨sA, st1⟩
  have hga_ne : st1.accountStates.lookup b = st.accountStates.lookup b := by
    have := getAccountState_lookup_ne st acc b hb; rwa [hga] at this
  cases hparse : parseBigInt amount with
  | none => simp only [mockUnbond, hga, hparse]; exact hga_ne
  | some amt =>
      simp only [mockUnbond, hga, hparse]
      split
      next => exact hga_ne
      next pid hpid =>
        split
        next => exact hga_ne
        next =>
          rcases hgp : getPoolState st1 pid with ⟨pP, st2⟩
          have h2eq : st2.accountStates = st1.accountStates := by
            have := getPoolState_accountStates st1 pid; rwa [hgp] at this
          simp only [hgp]
          split
          all_goals simp [h2eq, hga_ne, lookup_setEntry_ne hb]

theorem mockWithdrawUnbonded_lookup_ne (fmt : Int → String) (st : MockState)
    (acc : String) (now : Int) (b : String) (hb : b ≠ acc) :
    ((mockWithdrawUnbonded fmt st acc now).2).accountStates.lookup b
      = st.accountStates.lookup b := by
  rcases hga : getAccountState st acc with ⟨sA, st1⟩
  have hga_ne : st1.accountStates.lookup b = st.accountStates.lookup b := by
    have := getAccountState_lookup_ne st acc b hb; rwa [hga] at this
  simp only [mockWithdrawUnbonded, hga]
  repeat' split
  all_goals simp [hga_ne, lookup_setEntry_ne hb]

theorem mockClaimRewards_lookup_ne (fmt : Int → String) (st : MockState)
    (acc : String) (poolArg : Option Nat) (b : String) (hb : b ≠ acc) :
    ((mockClaimRewards fmt st acc poolArg).2).accountStates.lookup b
      = st.accountStates.lookup b := by
  rcases hga : getAccountState st acc with ⟨sA, st1⟩
  have hga_ne : st1.accountStates.lookup b = st.accountStates.lookup b := by
    have := getAccountState_lookup_ne st acc b hb; rwa [hga] at this
  simp only [mockClaimRewards, hga]
  repeat' split
  all_goals simp [hga_ne, lookup_setEntry_ne hb]

theorem mockGetStakingStatus_lookup_ne (st : MockState) (acc : String)
    (b : String) (hb : b ≠ acc) :
    ((mockGetStakingStatus st acc).2).accountStates.lookup b
      = st.accountStates.lookup b := by
  rcases hga : getAccountState st acc with ⟨sA, st1⟩
  have hga_ne : st1.accountStates.lookup b = st.accountStates.lookup b := by
    have := getAccountState_lookup_ne st acc b hb; rwa [hga] at this
  simp only [mockGetStakingStatus, hga]
  split
  all_goals simp [hga_ne, lookup_setEntry_ne hb]

/-! ### Conservation of `sumOf` across single operations -/

theorem sumOf_mockJoinPool {fmt : Int → String} {st : MockState}
    {acc : String} {pid : Nat} {amount : String} {now : Int}
    {a : String} {s s' : AccountState}
    (hs : st.accountStates.lookup a = some s)
    (hs' : ((mockJoinPool fmt st acc pid amount now).2).accountStates.lookup a
      = some s') : sumOf s' = sumOf s := by
  by_cases hacc : a = acc
  · subst hacc
    have hga := getAccountState_of_mem st a s hs
    rcases hgp : getPoolState st pid with ⟨pP, st2⟩
    have h2eq : st2.accountStates = st.accountStates := by
      have := getPoolState_accountStates st pid; rwa [hgp] at this
    cases hparse : parseBigInt amount with
    | none =>
        simp only [mockJoinPool, hga, hgp, hparse] at hs'
        rw [h2eq, hs] at hs'
        cases hs'; rfl
    | some amt =>
        simp only [mockJoinPool, hga, hgp, hparse] at hs'
        repeat' split at hs'
        all_goals first
          | (simp only [h2eq, hs, Option.some.injEq] at hs'
             subst hs'; rfl)
          | (simp only [lookup_setEntry_self, Option.some.injEq] at hs'
             subst hs'; simp [sumOf]; try ring)
  · rw [mockJoinPool_lookup_ne fmt st acc pid amount now a hacc, hs] at hs'
    cases hs'; rfl

theorem sumOf_mockBondExtra {fmt : Int → String} {st : MockState}
    {acc : String} {amount : String} {a : String} {s s' : AccountState}
    (hs : st.accountStates.lookup a = some s)
    (hs' : ((mockBondExtra fmt st acc amount).2).accountStates.lookup a
      = some s') : sumOf s' = sumOf s := by
  by_cases hacc : a = acc
  · subst hacc
    have hga := getAccountState_of_mem st a s hs
    cases hparse : parseBigInt amount with
    | none =>
        simp only [mockBondExtra, hga, hparse] at hs'
        rw [hs] at hs'
        cases hs'; rfl
    | some amt =>
        simp only [mockBondExtra, hga, hparse] at hs'
        split at hs'
        next =>
          rw [hs] at hs'; cases hs'; rfl
        next pid hpid =>
          rcases hgp : getPoolState st pid with ⟨pP, st2⟩
          have h2eq : st2.accountStates = st.accountStates := by
            have := getPoolState_accountStates st pid; rwa [hgp] at this
          simp only [hgp] at hs'
          split at hs'
          next =>
            rw [hs] at hs'; cases hs'; rfl
          next =>
            simp only [lookup_setEntry_self, h2eq, Option.some.injEq] at hs'
            subst hs'; simp [sumOf]; try ring
  · rw [mockBondExtra_lookup_ne fmt st acc amount a hacc, hs] at hs'
    cases hs'; rfl

theorem sumOf_mockUnbond {fmt : Int → String} {st : MockState}
    {acc : String} {amount : String} {now : Int} {a : String}
    {s s' : AccountState}
    (hs : st.accountStates.lookup a = some s)
    (hs' : ((mockUnbond fmt st acc amount now).2).accountStates.lookup a
      = some s') : sumOf s' = sumOf s := by
  by_cases hacc : a = acc
  · subst hacc
    have hga := getAccountState_of_mem st a s hs
    cases hparse : parseBigInt amount with
    | none =>
        simp only [mockUnbond, hga, hparse] at hs'
        rw [hs] at hs'
        cases hs'; rfl
    | some amt =>
        simp only [mockUnbond, hga, hparse] at hs'
        split at hs'
        next =>
          rw [hs] at hs'; cases hs'; rfl
        next pid hpid =>
          split at hs'
          next =>
            rw [hs] at hs'; cases hs'; rfl
          next =>
            rcases hgp : getPoolState st pid with ⟨pP, st2⟩
            have h2eq : st2.accountStates = st.accountStates := by
              have := getPoolState_accountStates st pid; rwa [hgp] at this
            simp only [hgp] at hs'
            split at hs'
            all_goals
              simp only [lookup_setEntry_self, h2eq, Option.some.injEq] at hs'
            all_goals (subst hs'; simp [sumOf]; try ring)
  · rw [mockUnbond_lookup_ne fmt st acc amount now a hacc, hs] at hs'
    cases hs'; rfl

theorem sumOf_mockWithdrawUnbonded {fmt : Int → String} {st : MockState}
    {acc : String} {now : Int} {a : String} {s s' : AccountState}
    (hs : st.accountStates.lookup a = some s)
    (hs' : ((mockWithdrawUnbonded fmt st acc now).2).accountStates.lookup a
      = some s') : sumOf s' = sumOf s := by
  by_cases hacc : a = acc
  · subst hacc
    have hga := getAccountState_of_mem st a s hs
    simp only [mockWithdrawUnbonded, hga] at hs'
    repeat' split at hs'
    all_goals first
      | (rw [hs] at hs'; cases hs'; rfl)
      | (simp only [lookup_setEntry_self, Option.some.injEq] at hs'
         subst hs'; simp [sumOf]; try ring)
  · rw [mockWithdrawUnbonded_lookup_ne fmt st acc now a hacc, hs] at hs'
    cases hs'; rfl

theorem sumOf_mockClaimRewards {fmt : Int → String} {st : MockState}
    {acc : String} {poolArg : Option Nat} {a : String} {s s' : AccountState}
    (hs : st.accountStates.lookup a = some s)
    (hs' : ((mockClaimRewards fmt st acc poolArg).2).accountStates.lookup a
      = some s') : sumOf s' = sumOf s := by
  by_cases hacc : a = acc
  · subst hacc
    have hga := getAccountState_of_mem st a s hs
    simp only [mockClaimRewards, hga] at hs'
    repeat' split at hs'
    all_goals first
      | (rw [hs] at hs'; cases hs'; rfl)
      | (simp only [lookup_setEntry_self, Option.some.injEq] at hs'
         subst hs'; simp [sumOf]; try ring)
  · rw [mockClaimRewards_lookup_ne fmt st acc poolArg a hacc, hs] at hs'
    cases hs'; rfl

theorem sumOf_mockGetStakingStatus {st : MockState} {acc : String}
    {a : String} {s s' : AccountState}
    (hs : st.accountStates.lookup a = some s)
    (hs' : ((mockGetStakingStatus st acc).2).accountStates.lookup a
      = some s') (hb : 0 ≤ s.bonded) : sumOf s ≤ sumOf s' := by
  by_cases hacc : a = acc
  · subst hacc
    have hga := getAccountState_of_mem st a s hs
    simp only [mockGetStakingStatus, hga] at hs'
    split at hs'
    next =>
      simp only [lookup_setEntry_self, Option.some.injEq] at hs'
      subst hs'
      have hdiv : 0 ≤ Int.tdiv s.bonded 1000 :=
        Int.tdiv_nonneg hb (by norm_num)
      simp [sumOf]
      omega
    next =>
      rw [hs] at hs'
      cases hs'
      exact le_refl _
  · rw [mockGetStakingStatus_lookup_ne st acc a hacc, hs] at hs'
    cases hs'; exact le_refl _

/-! ### Claim C1 -/

/-- C1 (amended): starting from the empty ledger, after any sequence of core
operations all of whose amount strings parse as strictly positive integers,
every account record carries at most one pool id (`poolId` is a single
optional field) and `poolId` is present iff `bonded` is nonzero.  The
positivity restriction is forced: a `JoinPool` with amount "0" (accepted by
the code) yields `poolId` present with `bonded == 0`. -/
theorem single_membership_of_positive_amounts (fmt : Int → String)
    (ops : List Op) (hok : opsAmountsPos ops = true) (a : String)
    (s : AccountState)
    (hs : (runOps fmt initialState ops).accountStates.lookup a = some s) :
    (s.poolId = none ∨ ∃ p, s.poolId = some p) ∧
    (s.poolId ≠ none ↔ s.bonded ≠ 0) := by
  have hinv := InvMap_runOps fmt ops initialState InvMap_initialState hok
  have hP := hinv a s hs
  refine ⟨?_, hP.1⟩
  cases h : s.poolId with
  | none => exact Or.inl rfl
  | some p => exact Or.inr ⟨p, rfl⟩

/-- Witness for C1: the amended invariant holds after a concrete positive
join (alice joins pool 1 with 1000 Planck). -/
theorem single_membership_of_positive_amounts_witness :
    opsAmountsPos [Op.joinPool "alice" 1 "1000" 0] = true ∧
    ((runOps (fun _ => "") initialState
        [Op.joinPool "alice" 1 "1000" 0]).accountStates.lookup "alice"
      = some ⟨9999999999000, some 1, 1000, 0, none, 0⟩) ∧
    (((⟨9999999999000, some 1, 1000, 0, none, 0⟩ : AccountState).poolId ≠ none)
      ↔ ((⟨9999999999000, some 1, 1000, 0, none, 0⟩ : AccountState).bonded ≠ 0)) :=
  ⟨by decide, by decide,
   (single_membership_of_positive_amounts (fun _ => "")
      [Op.joinPool "alice" 1 "1000" 0] (by decide) "alice"
      ⟨9999999999000, some 1, 1000, 0, none, 0⟩ (by decide)).2⟩

/-- Counterexample for C1 as stated: joining with amount "0" (a sequence of
one core operation from the initial empty ledger) leaves alice with
`poolId = some 1` and `bonded = 0`, so `bonded == 0 ⇒ poolId == None` fails
on a reachable state. -/
theorem single_membership_cex :
    (((runOps (fun _ => "") initialState
        [Op.joinPool "alice" 1 "0" 0]).accountStates.lookup "alice").map
      (fun s => (s.poolId, s.bonded)) = some (some 1, 0)) ∧
    ¬ (∀ a s, (runOps (fun _ => "") initialState
        [Op.joinPool "alice" 1 "0" 0]).accountStates.lookup a = some s →
          (s.bonded = 0 → s.poolId = none)) := by
  refine ⟨by decide, fun h => ?_⟩
  have h2 := h "alice" ⟨10000000000000, some 1, 0, 0, none, 0⟩ (by decide) rfl
  cases h2

/-! ### Claim C2 -/

/-- C2 (amended): across any single core operation, the account quantity
`freeBalance + bonded + unbonding + claimableRewards` is left exactly
unchanged by the five mutating operations, and is not decreased by
`GetStatus` provided the account's `bonded` is nonnegative (which holds
whenever all supplied amounts are the unsigned integers the interface
prescribes).  The nonnegativity proviso is forced: a negative join amount
makes `bonded` negative and `GetStatus` then accrues a negative reward. -/
theorem conservation_per_operation (fmt : Int → String) (st : MockState)
    (op : Op) (a : String) (s s' : AccountState)
    (hs : st.accountStates.lookup a = some s)
    (hs' : (applyOp fmt st op).accountStates.lookup a = some s') :
    (op.isGetStatus = false → sumOf s' = sumOf s) ∧
    (0 ≤ s.bonded → sumOf s ≤ sumOf s') := by
  cases op with
  | joinPool acc pid amount now =>
      have key := sumOf_mockJoinPool hs (by simpa [applyOp] using hs')
      exact ⟨fun _ => key, fun _ => le_of_eq key.symm⟩
  | bondExtra acc amount =>
      have key := sumOf_mockBondExtra hs (by simpa [applyOp] using hs')
      exact ⟨fun _ => key, fun _ => le_of_eq key.symm⟩
  | unbond acc amount now =>
      have key := sumOf_mockUnbond hs (by simpa [applyOp] using hs')
      exact ⟨fun _ => key, fun _ => le_of_eq key.symm⟩
  | withdrawUnbonded acc now =>
      have key := sumOf_mockWithdrawUnbonded hs (by simpa [applyOp] using hs')
      exact ⟨fun _ => key, fun _ => le_of_eq key.symm⟩
  | claimRewards acc poolArg =>
      have key := sumOf_mockClaimRewards hs (by simpa [applyOp] using hs')
      exact ⟨fun _ => key, fun _ => le_of_eq key.symm⟩
  | getStatus acc =>
      constructor
      · intro hfalse
        simp [Op.isGetStatus] at hfalse
      · intro hb
        exact sumOf_mockGetStakingStatus hs (by simpa [applyOp] using hs') hb

/-- Witness for C2: a concrete `GetStatus` on a member with bonded 1000
accrues reward 1 and does not decrease the conserved sum. -/
theorem conservation_per_operation_witness :
    sumOf ⟨5000, some 1, 1000, 0, none, 0⟩
      ≤ sumOf ⟨5000, some 1, 1000, 0, none, 1⟩ :=
  (conservation_per_operation (fun _ => "")
      ⟨[("a", ⟨5000, some 1, 1000, 0, none, 0⟩)],
       [(1, ⟨1, 1000, 1, .Open, "0%", none⟩)]⟩
      (Op.getStatus "a") "a"
      ⟨5000, some 1, 1000, 0, none, 0⟩ ⟨5000, some 1, 1000, 0, none, 1⟩
      (by decide) (by decide)).2 (by decide)

/-- Counterexample for C2 as stated: from the empty ledger, a join with the
(accepted) negative amount "-2000" leaves alice's conserved sum at the
default 10000000000000, and the subsequent `GetStatus` call — one of the
six core operations — drops it to 9999999999998, so the sum does decrease
through an operation of §4. -/
theorem conservation_cex :
    (((runOps (fun _ => "") initialState
        [Op.joinPool "alice" 1 "-2000" 0]).accountStates.lookup "alice").map
      sumOf = some 10000000000000) ∧
    (((runOps (fun _ => "") initialState
        [Op.joinPool "alice" 1 "-2000" 0,
         Op.getStatus "alice"]).accountStates.lookup "alice").map
      sumOf = some 9999999999998) ∧
    ¬ (∀ (st : MockState) (op : Op) (a : String) (s s' : AccountState),
        st.accountStates.lookup a = some s →
        (applyOp (fun _ => "") st op).accountStates.lookup a = some s' →
        sumOf s ≤ sumOf s') := by
  refine ⟨by decide, by decide, fun h => ?_⟩
  have h2 := h (runOps (fun _ => "") initialState
      [Op.joinPool "alice" 1 "-2000" 0]) (Op.getStatus "alice") "alice"
      ⟨10000000002000, some 1, -2000, 0, none, 0⟩
      ⟨10000000002000, some 1, -2000, 0, none, -2⟩
      (by decide) (by decide)
  exact absurd h2 (by decide)

/-! ### Claim C3 -/

/-- C3: the claim says an unparsable amount yields a typed ValidationError
outcome without throwing; in the code the bare `BigInt(amount)` conversion
throws instead (modelled by the `none` result), for each of the three
amount-taking operations, so no `OpResult` — let alone a ValidationError
one — is produced. -/
theorem unparsable_amount_throws :
    parseBigInt "abc" = none ∧
    (mockJoinPool (fun _ => "") initialState "alice" 1 "abc" 0).1 = none ∧
    (mockBondExtra (fun _ => "") initialState "alice" "abc").1 = none ∧
    (mockUnbond (fun _ => "") initialState "alice" "abc" 0).1 = none := by
  refine ⟨by decide, by decide, by decide, by decide⟩

/-! ### Claim C4 -/

/-- C4: a successful Unbond (member account, amount not exceeding bonded)
moves the amount from bonded to unbonding, unconditionally overwrites
`unbondingEra` with `now + UNBONDING_PERIOD_MS` (whatever release time was
pending before), decrements the pool's total bonded by the amount, and —
exactly when the new bonded is zero — clears `poolId` and decrements the
pool's member count. -/
theorem unbond_success_effect (fmt : Int → String) (st : MockState)
    (acc : String) (pid : Nat) (amount : String) (amt now : Int)
    (s : AccountState) (p : PoolState)
    (hs : st.accountStates.lookup acc = some s)
    (hp : st.poolStates.lookup pid = some p)
    (hpid : s.poolId = some pid)
    (hparse : parseBigInt amount = some amt)
    (hle : amt ≤ s.bonded) :
    (mockUnbond fmt st acc amount now).1 =
      some { success := true
             message := "Initiated unbonding of " ++ fmt amt ++
               " WND (28-day unbonding period)"
             error := none } ∧
    ((mockUnbond fmt st acc amount now).2).accountStates.lookup acc = some
      { balance := s.balance
        poolId := if s.bonded - amt = 0 then none else some pid
        bonded := s.bonded - amt
        unbonding := s.unbonding + amt
        unbondingEra := some (now + UNBONDING_PERIOD_MS)
        claimableRewards := s.claimableRewards } ∧
    ((mockUnbond fmt st acc amount now).2).poolStates.lookup pid = some
      { p with
        bonded := p.bonded - amt
        memberCount :=
          if s.bonded - amt = 0 then p.memberCount - 1 else p.memberCount } := by
  have hga := getAccountState_of_mem st acc s hs
  have hgp := getPoolState_of_mem st pid p hp
  refine ⟨?_, ?_, ?_⟩
  · simp only [mockUnbond, hga, hparse, hpid, hgp]
    split
    next h => exact absurd h (by omega)
    next h => rfl
  · simp only [mockUnbond, hga, hparse, hpid, hgp]
    split
    next h => exact absurd h (by omega)
    next h =>
      by_cases h0 : s.bonded - amt = 0 <;>
        simp [h0, lookup_setEntry_self]
  · simp only [mockUnbond, hga, hparse, hpid, hgp]
    split
    next h => exact absurd h (by omega)
    next h =>
      by_cases h0 : s.bonded - amt = 0 <;>
        simp [h0, lookup_setEntry_self]

/-- Witness for C4: a member of pool 1 with bonded 1000, unbonding 500 and a
pending release time 99 fully unbonds 1000 at time 123: bonded drops to 0,
unbonding rises to 1500, the release time is overwritten with
123 + UNBONDING_PERIOD_MS, poolId clears and the pool's member count drops
from 2 to 1. -/
theorem unbond_success_effect_witness :
    (mockUnbond (fun _ => "")
        ⟨[("a", ⟨0, some 1, 1000, 500, some 99, 7⟩)],
         [(1, ⟨1, 1500, 2, .Open, "0%", none⟩)]⟩ "a" "1000" 123).1 =
      some { success := true
             message := "Initiated unbonding of  WND (28-day unbonding period)"
             error := none } ∧
    ((mockUnbond (fun _ => "")
        ⟨[("a", ⟨0, some 1, 1000, 500, some 99, 7⟩)],
         [(1, ⟨1, 1500, 2, .Open, "0%", none⟩)]⟩ "a" "1000" 123).2
      ).accountStates.lookup "a" =
      some ⟨0, none, 0, 1500, some (123 + UNBONDING_PERIOD_MS), 7⟩ ∧
    ((mockUnbond (fun _ => "")
        ⟨[("a", ⟨0, some 1, 1000, 500, some 99, 7⟩)],
         [(1, ⟨1, 1500, 2, .Open, "0%", none⟩)]⟩ "a" "1000" 123).2
      ).poolStates.lookup 1 = some ⟨1, 500, 1, .Open, "0%", none⟩ := by
  have h := unbond_success_effect (fun _ => "")
      ⟨[("a", ⟨0, some 1, 1000, 500, some 99, 7⟩)],
       [(1, ⟨1, 1500, 2, .Open, "0%", none⟩)]⟩ "a" 1 "1000" 1000 123
      ⟨0, some 1, 1000, 500, some 99, 7⟩ ⟨1, 1500, 2, .Open, "0%", none⟩
      (by decide) (by decide) (by decide) (by decide) (by decide)
  refine ⟨?_, ?_, ?_⟩
  · rw [h.1]; decide
  · rw [h.2.1]; decide
  · rw [h.2.2]; decide

/-! ### Claim C5 -/

/-- C5: WithdrawUnbonded with zero unbonding fails NO_UNBONDED_FUNDS; with
nonzero unbonding strictly before the release time it fails
UNBONDING_PERIOD_NOT_COMPLETE leaving the whole state (hence every field)
unchanged; with nonzero unbonding at or after the release time it succeeds,
adds the whole unbonding amount to the free balance, zeroes unbonding and
clears the release time. -/
theorem withdraw_unbonded_gate (fmt : Int → String) (st : MockState)
    (acc : String) (now t : Int) (s : AccountState)
    (hs : st.accountStates.lookup acc = some s) :
    (s.unbonding = 0 →
      mockWithdrawUnbonded fmt st acc now =
        (some { success := false
                message := "No unbonded funds to withdraw"
                error := some "NO_UNBONDED_FUNDS" }, st)) ∧
    (s.unbonding ≠ 0 → s.unbondingEra = some t → now < t →
      mockWithdrawUnbonded fmt st acc now =
        (some { success := false
                message := "Unbonding period not complete. " ++
                  toString (ceilDiv (t - now) ONE_DAY_MS) ++
                  " days remaining."
                error := some "UNBONDING_PERIOD_NOT_COMPLETE" }, st)) ∧
    (s.unbonding ≠ 0 → s.unbondingEra = some t → t ≤ now →
      (mockWithdrawUnbonded fmt st acc now).1 =
        some { success := true
               message := "Withdrew " ++ fmt s.unbonding ++
                 " WND (now available as free balance)"
               error := none } ∧
      ((mockWithdrawUnbonded fmt st acc now).2).accountStates.lookup acc =
        some { s with
               balance := s.balance + s.unbonding
               unbonding := 0
               unbondingEra := none } ∧
      ((mockWithdrawUnbonded fmt st acc now).2).poolStates = st.poolStates) := by
  have hga := getAccountState_of_mem st acc s hs
  refine ⟨?_, ?_, ?_⟩
  · intro h0
    simp only [mockWithdrawUnbonded, hga]
    rw [if_pos h0]
  · intro h0 hera hlt
    simp only [mockWithdrawUnbonded, hga, hera]
    rw [if_neg h0, if_pos (by simpa using hlt)]
    rfl
  · intro h0 hera hge
    simp only [mockWithdrawUnbonded, hga, hera]
    rw [if_neg h0, if_neg (by simpa using not_lt.mpr hge)]
    exact ⟨rfl, by rw [lookup_setEntry_self], rfl⟩

/-- Witness for C5: an account with unbonding 1500 and release time 1000 is
rejected at time 999 with the state unchanged, and succeeds at time 1000
with the 1500 moved to the free balance. -/
theorem withdraw_unbonded_gate_witness :
    (mockWithdrawUnbonded (fun _ => "")
        ⟨[("a", ⟨20, none, 0, 1500, some 1000, 0⟩)], []⟩ "a" 999 =
      (some { success := false
              message := "Unbonding period not complete. 1 days remaining."
              error := some "UNBONDING_PERIOD_NOT_COMPLETE" },
       ⟨[("a", ⟨20, none, 0, 1500, some 1000, 0⟩)], []⟩)) ∧
    ((mockWithdrawUnbonded (fun _ => "")
        ⟨[("a", ⟨20, none, 0, 1500, some 1000, 0⟩)], []⟩ "a" 1000).2
      ).accountStates.lookup "a" = some ⟨1520, none, 0, 0, none, 0⟩ := by
  have h1 := (withdraw_unbonded_gate (fun _ => "")
      ⟨[("a", ⟨20, none, 0, 1500, some 1000, 0⟩)], []⟩ "a" 999 1000
      ⟨20, none, 0, 1500, some 1000, 0⟩ (by decide)).2.1
      (by decide) (by decide) (by decide)
  have h2 := (withdraw_unbonded_gate (fun _ => "")
      ⟨[("a", ⟨20, none, 0, 1500, some 1000, 0⟩)], []⟩ "a" 1000 1000
      ⟨20, none, 0, 1500, some 1000, 0⟩ (by decide)).2.2
      (by decide) (by decide) (by decide)
  refine ⟨?_, ?_⟩
  · rw [h1]; decide
  · rw [h2.2.1]; decide

/-! ### Claim C6 -/

/-- C6: a GetStatus call on an account with a pool membership and nonzero
bonded increases claimableRewards by exactly `bonded / 1000` (BigInt
division, truncating) before building the returned view, changes no other
account field and no pool record, and reports `isMember = true`; on a
non-member or zero-bonded account the call returns the current view and
leaves the state entirely unchanged. -/
theorem get_status_accrual (st : MockState) (acc : String)
    (s : AccountState) (hs : st.accountStates.lookup acc = some s) :
    (∀ pid, s.poolId = some pid → s.bonded ≠ 0 →
      (mockGetStakingStatus st acc).1 =
        { account := acc
          poolId := some pid
          bonded := s.bonded
          unbonding := s.unbonding
          claimableRewards := s.claimableRewards + Int.tdiv s.bonded 1000
          isMember := true
          balance := s.balance } ∧
      ((mockGetStakingStatus st acc).2).accountStates.lookup acc =
        some { s with
               claimableRewards :=
                 s.claimableRewards + Int.tdiv s.bonded 1000 } ∧
      ((mockGetStakingStatus st acc).2).poolStates = st.poolStates) ∧
    ((s.poolId = none ∨ s.bonded = 0) →
      mockGetStakingStatus st acc =
        ({ account := acc
           poolId := s.poolId
           bonded := s.bonded
           unbonding := s.unbonding
           claimableRewards := s.claimableRewards
           isMember := s.poolId.isSome
           balance := s.balance }, st)) := by
  have hga := getAccountState_of_mem st acc s hs
  refine ⟨?_, ?_⟩
  · intro pid hpid hb
    simp only [mockGetStakingStatus, hga]
    rw [if_pos (by exact ⟨by simp [hpid], hb⟩)]
    refine ⟨by simp [hpid], by rw [lookup_setEntry_self], rfl⟩
  · intro hor
    simp only [mockGetStakingStatus, hga]
    rw [if_neg (by
      rcases hor with h | h
      · exact fun hc => hc.1 h
      · exact fun hc => hc.2 h)]

/-- Witness for C6: alice, a member of pool 1 with bonded exactly 1000,
accrues exactly 1 (1000/1000) on a single status call, every other field
unchanged; bob, not in any pool, is returned unchanged. -/
theorem get_status_accrual_witness :
    ((mockGetStakingStatus
        ⟨[("alice", ⟨40, some 1, 1000, 3, none, 5⟩)], []⟩ "alice").1 =
      { account := "alice", poolId := some 1, bonded := 1000, unbonding := 3,
        claimableRewards := 6, isMember := true, balance := 40 }) ∧
    (((mockGetStakingStatus
        ⟨[("alice", ⟨40, some 1, 1000, 3, none, 5⟩)], []⟩ "alice").2
      ).accountStates.lookup "alice" =
        some ⟨40, some 1, 1000, 3, none, 6⟩) ∧
    (mockGetStakingStatus
        ⟨[("bob", ⟨7, none, 0, 0, none, 0⟩)], []⟩ "bob" =
      ({ account := "bob", poolId := none, bonded := 0, unbonding := 0,
         claimableRewards := 0, isMember := false, balance := 7 },
       ⟨[("bob", ⟨7, none, 0, 0, none, 0⟩)], []⟩)) := by
  have h1 := (get_status_accrual
      ⟨[("alice", ⟨40, some 1, 1000, 3, none, 5⟩)], []⟩ "alice"
      ⟨40, some 1, 1000, 3, none, 5⟩ (by decide)).1 1 (by decide) (by decide)
  have h2 := (get_status_accrual
      ⟨[("bob", ⟨7, none, 0, 0, none, 0⟩)], []⟩ "bob"
      ⟨7, none, 0, 0, none, 0⟩ (by decide)).2 (Or.inl (by decide))
  refine ⟨?_, ?_, ?_⟩
  · rw [h1.1]; decide
  · rw [h1.2.1]; decide
  · rw [h2]; decide

/-! ### Claim C7 -/

/-- Counterexample for C7 as stated: querying pool 7 on the fresh (empty)
registry returns data but the pool map is NOT unchanged — the default
record for pool 7 is persisted by the query (there is no non-persisting
`getReadOnly` path; `mockGetPoolInfo` is built on the get-or-create
`getPoolState`). -/
theorem pool_info_persists_cex :
    ((mockGetPoolInfo initialState 7).2.poolStates
      = [(7, defaultPoolState 7)]) ∧
    (mockGetPoolInfo initialState 7).2.poolStates ≠ initialState.poolStates := by
  refine ⟨by decide, by decide⟩

/-- C7 (amended): the pool-info query on a pool never touched by any ledger
operation returns the default pool view (Open, zeroed aggregates, default
commission/metadata, "N/A" roles) but, contrary to the claim, persists the
default pool record in the registry: afterwards the pool map binds the
queried id to the default record, the rest of the state unchanged. -/
theorem pool_info_untouched_pool (st : MockState) (pid : Nat)
    (h : st.poolStates.lookup pid = none) :
    (mockGetPoolInfo st pid).1 =
      { poolId := pid
        bonded := 0
        memberCount := 0
        state := .Open
        commission := "0%"
        metadata := some ("Pool " ++ toString pid ++ " (Mock)")
        depositor := "N/A"
        root := "N/A"
        nominator := "N/A"
        stateToggler := "N/A" } ∧
    (mockGetPoolInfo st pid).2 =
      { st with poolStates :=
          setEntry st.poolStates pid (defaultPoolState pid) } ∧
    ((mockGetPoolInfo st pid).2).poolStates.lookup pid
      = some (defaultPoolState pid) := by
  simp [mockGetPoolInfo, getPoolState, defaultPoolState, h,
    lookup_setEntry_self]

/-- Witness for C7: querying untouched pool 7 of the empty registry yields
the default view and installs the default record. -/
theorem pool_info_untouched_pool_witness :
    (mockGetPoolInfo initialState 7).1 =
      { poolId := 7, bonded := 0, memberCount := 0, state := .Open,
        commission := "0%", metadata := some "Pool 7 (Mock)",
        depositor := "N/A", root := "N/A", nominator := "N/A",
        stateToggler := "N/A" } ∧
    ((mockGetPoolInfo initialState 7).2).poolStates.lookup 7
      = some (defaultPoolState 7) := by
  have h := pool_info_untouched_pool initialState 7 (by decide)
  refine ⟨?_, h.2.2⟩
  rw [h.1]; decide

/-! ### Claim C8 -/

/-- C8: JoinPool's five preconditions are checked in the fixed source order
pool-not-open, already-in-a-different-pool, funds-unbonding,
insufficient-balance, already-in-this-pool; the first failing check
determines the returned error, and every failing JoinPool returns the
state completely unchanged (no partial deduction on any record). -/
theorem join_pool_check_order (fmt : Int → String) (st : MockState)
    (acc : String) (pid : Nat) (amount : String) (amt now : Int)
    (s : AccountState) (p : PoolState)
    (hs : st.accountStates.lookup acc = some s)
    (hp : st.poolStates.lookup pid = some p)
    (hparse : parseBigInt amount = some amt) :
    (p.state ≠ .Open →
      mockJoinPool fmt st acc pid amount now =
        (some { success := false
                message := "Cannot join pool " ++ toString pid ++
                  ": pool is " ++ p.state.str
                error := some "POOL_NOT_OPEN" }, st)) ∧
    (∀ q, p.state = .Open → s.poolId = some q → q ≠ pid →
      mockJoinPool fmt st acc pid amount now =
        (some { success := false
                message := "Already in pool " ++ toString q ++
                  ". Unbond first to switch pools."
                error := some "ALREADY_IN_POOL" }, st)) ∧
    (p.state = .Open → (s.poolId = none ∨ s.poolId = some pid) →
     0 < s.unbonding → now < s.unbondingEra.getD 0 →
      mockJoinPool fmt st acc pid amount now =
        (some { success := false
                message := "Cannot join pool: " ++ fmt s.unbonding ++
                  " WND still unbonding (" ++
                  toString (ceilDiv (s.unbondingEra.getD 0 - now) ONE_DAY_MS) ++
                  " days remaining). Withdraw unbonded funds first."
                error := some "FUNDS_UNBONDING" }, st)) ∧
    (p.state = .Open → (s.poolId = none ∨ s.poolId = some pid) →
     ¬ (0 < s.unbonding ∧ now < s.unbondingEra.getD 0) →
     s.balance < amt + minReserve →
      mockJoinPool fmt st acc pid amount now =
        (some { success := false
                message := "Insufficient balance. Need " ++ fmt amt ++
                  " WND + fees, have " ++ fmt s.balance ++ " WND"
                error := some "INSUFFICIENT_BALANCE" }, st)) ∧
    (p.state = .Open → s.poolId = some pid →
     ¬ (0 < s.unbonding ∧ now < s.unbondingEra.getD 0) →
     amt + minReserve ≤ s.balance →
      mockJoinPool fmt st acc pid amount now =
        (some { success := false
                message := "Already in pool " ++ toString pid ++
                  ". Use bond_extra to add more funds."
                error := some "ALREADY_IN_POOL" }, st)) := by
  have hga := getAccountState_of_mem st acc s hs
  have hgp := getPoolState_of_mem st pid p hp
  refine ⟨?_, ?_, ?_, ?_, ?_⟩
  · intro h1
    simp only [mockJoinPool, hga, hgp, hparse]
    rw [if_pos h1]
  · intro q h1 hq hqpid
    simp only [mockJoinPool, hga, hgp, hparse]
    rw [if_neg (show ¬ p.state ≠ .Open from fun hc => hc h1),
        if_pos (show s.poolId ≠ none ∧ s.poolId ≠ some pid from
          ⟨by simp [hq], by simp [hq, hqpid]⟩)]
    simp [hq]
  · intro h1 hor hu hnow
    simp only [mockJoinPool, hga, hgp, hparse]
    rw [if_neg (show ¬ p.state ≠ .Open from fun hc => hc h1),
        if_neg (show ¬ (s.poolId ≠ none ∧ s.poolId ≠ some pid) from by
          rcases hor with h | h
          · exact fun hc => hc.1 h
          · exact fun hc => hc.2 h),
        if_pos ⟨hu, hnow⟩]
  · intro h1 hor hnu hbal
    simp only [mockJoinPool, hga, hgp, hparse]
    rw [if_neg (show ¬ p.state ≠ .Open from fun hc => hc h1),
        if_neg (show ¬ (s.poolId ≠ none ∧ s.poolId ≠ some pid) from by
          rcases hor with h | h
          · exact fun hc => hc.1 h
          · exact fun hc => hc.2 h),
        if_neg hnu, if_pos hbal]
  · intro h1 hq hnu hle
    simp only [mockJoinPool, hga, hgp, hparse]
    rw [if_neg (show ¬ p.state ≠ .Open from fun hc => hc h1),
        if_neg (show ¬ (s.poolId ≠ none ∧ s.poolId ≠ some pid) from
          fun hc => hc.2 (by rw [hq])),
        if_neg hnu, if_neg (not_lt.mpr hle), if_pos hq]

/-- Witness for C8: carol with freeBalance 500 joining pool 1 with amount
1000 fails INSUFFICIENT_BALANCE with the whole state unchanged; dave's
join of the Blocked pool 3 fails POOL_NOT_OPEN although dave's own account
would pass every other check only later in the order. -/
theorem join_pool_check_order_witness :
    mockJoinPool (fun _ => "")
        ⟨[("carol", ⟨500, none, 0, 0, none, 0⟩)],
         [(1, ⟨1, 0, 0, .Open, "0%", none⟩)]⟩ "carol" 1 "1000" 0 =
      (some { success := false
              message := "Insufficient balance. Need  WND + fees, have  WND"
              error := some "INSUFFICIENT_BALANCE" },
       ⟨[("carol", ⟨500, none, 0, 0, none, 0⟩)],
        [(1, ⟨1, 0, 0, .Open, "0%", none⟩)]⟩) ∧
    mockJoinPool (fun _ => "")
        ⟨[("dave", ⟨99999999999999, some 2, 5, 0, none, 0⟩)],
         [(3, ⟨3, 0, 0, .Blocked, "0%", none⟩)]⟩ "dave" 3 "1000" 0 =
      (some { success := false
              message := "Cannot join pool 3: pool is Blocked"
              error := some "POOL_NOT_OPEN" },
       ⟨[("dave", ⟨99999999999999, some 2, 5, 0, none, 0⟩)],
        [(3, ⟨3, 0, 0, .Blocked, "0%", none⟩)]⟩) := by
  have h1 := (join_pool_check_order (fun _ => "")
      ⟨[("carol", ⟨500, none, 0, 0, none, 0⟩)],
       [(1, ⟨1, 0, 0, .Open, "0%", none⟩)]⟩ "carol" 1 "1000" 1000 0
      ⟨500, none, 0, 0, none, 0⟩ ⟨1, 0, 0, .Open, "0%", none⟩
      (by decide) (by decide) (by decide)).2.2.2.1
      (by decide) (Or.inl (by decide)) (by decide) (by decide)
  have h2 := (join_pool_check_order (fun _ => "")
      ⟨[("dave", ⟨99999999999999, some 2, 5, 0, none, 0⟩)],
       [(3, ⟨3, 0, 0, .Blocked, "0%", none⟩)]⟩ "dave" 3 "1000" 1000 0
      ⟨99999999999999, some 2, 5, 0, none, 0⟩ ⟨3, 0, 0, .Blocked, "0%", none⟩
      (by decide) (by decide) (by decide)).1 (by decide)
  refine ⟨?_, ?_⟩
  · rw [h1]; decide
  · rw [h2]; decide

/-! ### Claim C9 -/

/-- C9: for a pool member (with a matching or omitted caller-supplied pool
id), claiming with zero claimable rewards succeeds with the literal
"No rewards to claim" message and no error code and returns the state
exactly unchanged (so the zero-claim is the identity and repeating it is
idempotent); with nonzero rewards the whole amount moves to the free
balance and claimableRewards is zeroed, pools untouched. -/
theorem claim_rewards_zero_noop (fmt : Int → String) (st : MockState)
    (acc : String) (poolArg : Option Nat) (cur : Nat) (s : AccountState)
    (hs : st.accountStates.lookup acc = some s)
    (hcur : s.poolId = some cur)
    (harg : poolArg = none ∨ poolArg = some cur) :
    (s.claimableRewards = 0 →
      mockClaimRewards fmt st acc poolArg =
        (some { success := true
                message := "No rewards to claim"
                error := none }, st)) ∧
    (s.claimableRewards ≠ 0 →
      (mockClaimRewards fmt st acc poolArg).1 =
        some { success := true
               message := "Claimed " ++ fmt s.claimableRewards ++
                 " WND in rewards"
               error := none } ∧
      ((mockClaimRewards fmt st acc poolArg).2).accountStates.lookup acc =
        some { s with
               balance := s.balance + s.claimableRewards
               claimableRewards := 0 } ∧
      ((mockClaimRewards fmt st acc poolArg).2).poolStates = st.poolStates) := by
  have hga := getAccountState_of_mem st acc s hs
  have hwrong : ¬ (poolArg ≠ none ∧ poolArg ≠ some cur) := by
    rcases harg with h | h
    · exact fun hc => hc.1 h
    · exact fun hc => hc.2 h
  refine ⟨?_, ?_⟩
  · intro h0
    simp only [mockClaimRewards, hga, hcur]
    rw [if_neg hwrong, if_pos h0]
  · intro h0
    simp only [mockClaimRewards, hga, hcur]
    rw [if_neg hwrong, if_neg h0]
    exact ⟨rfl, by rw [lookup_setEntry_self], rfl⟩

/-- Witness for C9: eve (member of pool 4) with zero rewards gets the no-op
"No rewards to claim" success twice over — state identical — and with 42
claimable the 42 moves into the free balance. -/
theorem claim_rewards_zero_noop_witness :
    mockClaimRewards (fun _ => "")
        ⟨[("eve", ⟨100, some 4, 50, 0, none, 0⟩)], []⟩ "eve" (some 4) =
      (some { success := true, message := "No rewards to claim"
              error := none },
       ⟨[("eve", ⟨100, some 4, 50, 0, none, 0⟩)], []⟩) ∧
    ((mockClaimRewards (fun _ => "")
        ⟨[("eve", ⟨100, some 4, 50, 0, none, 42⟩)], []⟩ "eve" none).2
      ).accountStates.lookup "eve" = some ⟨142, some 4, 50, 0, none, 0⟩ := by
  have h1 := (claim_rewards_zero_noop (fun _ => "")
      ⟨[("eve", ⟨100, some 4, 50, 0, none, 0⟩)], []⟩ "eve" (some 4) 4
      ⟨100, some 4, 50, 0, none, 0⟩ (by decide) (by decide)
      (Or.inr (by decide))).1 (by decide)
  have h2 := (claim_rewards_zero_noop (fun _ => "")
      ⟨[("eve", ⟨100, some 4, 50, 0, none, 42⟩)], []⟩ "eve" none 4
      ⟨100, some 4, 50, 0, none, 42⟩ (by decide) (by decide)
      (Or.inl (by decide))).2 (by decide)
  refine ⟨?_, ?_⟩
  · rw [h1]
  · rw [h2.2.1]; decide

/-! ### Claim C10 -/

/-- C10: amounts are not validated to be nonnegative — for a member account
(nonnegative bonded) and any amount string parsing to a negative integer,
Unbond passes the `amount > bonded` guard and succeeds, leaving bonded
increased by the amount's magnitude, unbonding decreased by it (below the
unsigned domain), and the pool's total bonded increased. -/
theorem unbond_negative_amount (fmt : Int → String) (st : MockState)
    (acc : String) (pid : Nat) (amount : String) (amt now : Int)
    (s : AccountState) (p : PoolState)
    (hs : st.accountStates.lookup acc = some s)
    (hp : st.poolStates.lookup pid = some p)
    (hpid : s.poolId = some pid)
    (hparse : parseBigInt amount = some amt)
    (hneg : amt < 0) (hb : 0 ≤ s.bonded) :
    (mockUnbond fmt st acc amount now).1 =
      some { success := true
             message := "Initiated unbonding of " ++ fmt amt ++
               " WND (28-day unbonding period)"
             error := none } ∧
    ((mockUnbond fmt st acc amount now).2).accountStates.lookup acc = some
      { balance := s.balance
        poolId := some pid
        bonded := s.bonded - amt
        unbonding := s.unbonding + amt
        unbondingEra := some (now + UNBONDING_PERIOD_MS)
        claimableRewards := s.claimableRewards } ∧
    s.bonded < s.bonded - amt ∧
    s.unbonding + amt < s.unbonding ∧
    ((mockUnbond fmt st acc amount now).2).poolStates.lookup pid =
      some { p with bonded := p.bonded - amt } ∧
    p.bonded < p.bonded - amt := by
  have hga := getAccountState_of_mem st acc s hs
  have hgp := getPoolState_of_mem st pid p hp
  have h0 : ¬ (s.bonded - amt = 0) := by omega
  refine ⟨?_, ?_, by omega, by omega, ?_, by omega⟩
  · simp only [mockUnbond, hga, hparse, hpid, hgp]
    split
    next h => exact absurd h (by omega)
    next h => rfl
  · simp only [mockUnbond, hga, hparse, hpid, hgp]
    split
    next h => exact absurd h (by omega)
    next h => simp [h0, lookup_setEntry_self]
  · simp only [mockUnbond, hga, hparse, hpid, hgp]
    split
    next h => exact absurd h (by omega)
    next h => simp [h0, lookup_setEntry_self]

/-- Witness for C10: after alice joins pool 1 with 1000 (a reachable state),
`Unbond(alice, "-5")` succeeds and leaves bonded 1005, unbonding -5 and
pool total bonded 1005. -/
theorem unbond_negative_amount_witness :
    ((runOps (fun _ => "") initialState
        [Op.joinPool "alice" 1 "1000" 0]) =
      ⟨[("alice", ⟨9999999999000, some 1, 1000, 0, none, 0⟩)],
       [(1, ⟨1, 1000, 1, .Open, "0%", some "Pool 1 (Mock)"⟩)]⟩) ∧
    ((mockUnbond (fun _ => "")
        ⟨[("alice", ⟨9999999999000, some 1, 1000, 0, none, 0⟩)],
         [(1, ⟨1, 1000, 1, .Open, "0%", some "Pool 1 (Mock)"⟩)]⟩
        "alice" "-5" 77).1).map (fun r => (r.success, r.error)) =
      some (true, none) ∧
    ((mockUnbond (fun _ => "")
        ⟨[("alice", ⟨9999999999000, some 1, 1000, 0, none, 0⟩)],
         [(1, ⟨1, 1000, 1, .Open, "0%", some "Pool 1 (Mock)"⟩)]⟩
        "alice" "-5" 77).2).accountStates.lookup "alice" =
      some ⟨9999999999000, some 1, 1005, -5,
        some (77 + UNBONDING_PERIOD_MS), 0⟩ ∧
    ((mockUnbond (fun _ => "")
        ⟨[("alice", ⟨9999999999000, some 1, 1000, 0, none, 0⟩)],
         [(1, ⟨1, 1000, 1, .Open, "0%", some "Pool 1 (Mock)"⟩)]⟩
        "alice" "-5" 77).2).poolStates.lookup 1 =
      some ⟨1, 1005, 1, .Open, "0%", some "Pool 1 (Mock)"⟩ := by
  have h := unbond_negative_amount (fun _ => "")
      ⟨[("alice", ⟨9999999999000, some 1, 1000, 0, none, 0⟩)],
       [(1, ⟨1, 1000, 1, .Open, "0%", some "Pool 1 (Mock)"⟩)]⟩
      "alice" 1 "-5" (-5) 77
      ⟨9999999999000, some 1, 1000, 0, none, 0⟩
      ⟨1, 1000, 1, .Open, "0%", some "Pool 1 (Mock)"⟩
      (by decide) (by decide) (by decide) (by decide) (by decide) (by decide)
  refine ⟨by decide, ?_, ?_, ?_⟩
  · rw [h.1]; decide
  · rw [h.2.1]; decide
  · rw [h.2.2.2.2.1]; decide

end StakingAgent
